import Mathlib

/-!
Shallow embedding of `src/gcs-bucket.py`, a tool that scans the buckets of a
GCS project, keeps those with no activity after a cutoff date, and writes an
Excel report.  Pure data is modelled directly; calls into the Google Cloud
API are modelled as `Except`-valued fields of a `Client` record; Python
exceptions become `Except.error`, and a `try/except` block becomes a `match`
on the `Except` value.
-/

/-- A naive (timezone-free) datetime, as Python's `datetime.datetime` with
`tzinfo=None`.  Python compares naive datetimes field-lexicographically. -/
structure NaiveDateTime where
  year : Nat
  month : Nat
  day : Nat
  hour : Nat
  minute : Nat
  second : Nat
deriving DecidableEq, Repr

/-- Python's `a < b` on naive datetimes: lexicographic on the fields. -/
def NaiveDateTime.lt (a b : NaiveDateTime) : Bool :=
  if a.year ≠ b.year then a.year < b.year
  else if a.month ≠ b.month then a.month < b.month
  else if a.day ≠ b.day then a.day < b.day
  else if a.hour ≠ b.hour then a.hour < b.hour
  else if a.minute ≠ b.minute then a.minute < b.minute
  else a.second < b.second

/-- Python's `a <= b` on naive datetimes. -/
def NaiveDateTime.le (a b : NaiveDateTime) : Bool :=
  NaiveDateTime.lt a b || a == b

/-- A possibly timezone-aware datetime, as returned by the GCS API
(`time_created`, `updated`).  `tzinfo` models the attached timezone. -/
structure DateTime where
  dt : NaiveDateTime
  tzinfo : Option Int
deriving DecidableEq, Repr

/-- Python's `d.replace(tzinfo=None)`: drop the timezone, keep the fields. -/
def DateTime.replaceTzNone (d : DateTime) : DateTime :=
  { d with tzinfo := none }

/-- `d.replace(tzinfo=None) > cutoff`, the comparison the scanner performs
on every timestamp (lines 42, 45, 51 of the source). -/
def afterCutoff (d : DateTime) (cutoff : NaiveDateTime) : Bool :=
  NaiveDateTime.lt cutoff (DateTime.replaceTzNone d).dt

/-- A Python exception value. -/
inductive PyError where
  /-- `AttributeError`, e.g. calling `.replace` on `None`. -/
  | attributeError : PyError
  /-- Any error raised by a Google Cloud API call. -/
  | apiError : String → PyError
  /-- `DefaultCredentialsError` / `FileNotFoundError` from credential loading. -/
  | credentialsError : PyError
deriving DecidableEq, Repr

/-- Bucket metadata as returned by `client.get_bucket` / `client.list_buckets`. -/
structure BucketData where
  name : String
  time_created : DateTime
  updated : Option DateTime
  location : String
  storage_class : String
deriving DecidableEq, Repr

/-- Object (blob) metadata; `updated` is `blob.updated`, which the API may
leave as `None`. -/
structure Blob where
  updated : Option DateTime
deriving DecidableEq, Repr

/-- The record built at lines 54-60 of the source for an unmodified bucket. -/
structure ScanResult where
  name : String
  created : DateTime
  last_modified : DateTime
  location : String
  storage_class : String
deriving DecidableEq, Repr

/-- The authenticated storage client: each API call either returns data or
raises.  `list_buckets` is called once per run, so it is a single value. -/
structure Client where
  list_buckets : Except PyError (List BucketData)
  get_bucket : String → Except PyError BucketData
  list_blobs : String → Except PyError (List Blob)

/-- The dict literal at lines 54-60: `bucket.updated or bucket.time_created`
picks `updated` when it is not `None` (datetimes are always truthy). -/
def mkScanResult (bucket : BucketData) : ScanResult :=
  { name := bucket.name
    created := bucket.time_created
    last_modified := bucket.updated.getD bucket.time_created
    location := bucket.location
    storage_class := bucket.storage_class }

/-- The object loop at lines 49-52: walk the blobs in order; accessing
`blob.updated.replace` raises `AttributeError` when `updated` is `None`;
return `true` (exclude the bucket) at the first blob modified after the
cutoff; `false` if the loop finishes. -/
def blobsExceed : List Blob → NaiveDateTime → Except PyError Bool
  | [], _ => .ok false
  | blob :: rest, cutoff =>
    match blob.updated with
    | none => .error .attributeError
    | some u => if afterCutoff u cutoff then .ok true else blobsExceed rest cutoff

/-- The `try` suite of `check_bucket_modification` (lines 39-60):
fetch the bucket, apply the three recency checks in order, and either
return `none` (excluded), return the scan-result dict, or raise. -/
def check_bucket_modification_body (client : Client) (bucket_name : String)
    (cutoff_date : NaiveDateTime) : Except PyError (Option ScanResult) :=
  match client.get_bucket bucket_name with
  | .error e => .error e
  | .ok bucket =>
    if afterCutoff bucket.time_created cutoff_date then .ok none
    else if (match bucket.updated with
             | some u => afterCutoff u cutoff_date
             | none => false) then .ok none
    else match client.list_blobs bucket_name with
      | .error e => .error e
      | .ok blobs =>
        match blobsExceed blobs cutoff_date with
        | .error e => .error e
        | .ok true => .ok none
        | .ok false => .ok (some (mkScanResult bucket))

/-- `check_bucket_modification` (lines 38-63): the whole body is wrapped in
`try/except Exception`, which logs and returns `None` on any error. -/
def check_bucket_modification (client : Client) (bucket_name : String)
    (cutoff_date : NaiveDateTime) : Option ScanResult :=
  match check_bucket_modification_body client bucket_name cutoff_date with
  | .ok r => r
  | .error _ => none

/-- `get_unmodified_buckets` (lines 65-81): list the buckets; on failure log
and return the (still empty) accumulator; otherwise run the per-bucket check
on each bucket's name and keep the truthy results.  The thread pool only
affects collection order; the collected set is the `filterMap`. -/
def get_unmodified_buckets (client : Client) (cutoff_date : NaiveDateTime) :
    List ScanResult :=
  match client.list_buckets with
  | .error _ => []
  | .ok buckets =>
      buckets.filterMap
        (fun bucket => check_bucket_modification client bucket.name cutoff_date)

/-- One spreadsheet cell: its rendered value and whether its font is bold. -/
structure Cell where
  value : String
  bold : Bool
deriving DecidableEq, Repr

/-- The decimal digits of `n`, most significant first, as characters. -/
def decDigits (n : Nat) : List Char :=
  if n < 10 then [Char.ofNat (48 + n)]
  else decDigits (n / 10) ++ [Char.ofNat (48 + n % 10)]
decreasing_by exact Nat.div_lt_self (by omega) (by omega)

/-- Decimal rendering of a natural number. -/
def natStr (n : Nat) : String :=
  String.mk (decDigits n)

/-- Zero-pad a number to two digits, as `strftime` does for
`%m %d %H %M %S`. -/
def pad2 (n : Nat) : String :=
  if n < 10 then "0" ++ natStr n else natStr n

/-- Zero-pad a number to four digits, as `strftime` does for `%Y`. -/
def pad4 (n : Nat) : String :=
  if n < 10 then "000" ++ natStr n
  else if n < 100 then "00" ++ natStr n
  else if n < 1000 then "0" ++ natStr n
  else natStr n

/-- `strftime('%Y-%m-%d %H:%M:%S')` on a datetime (lines 98-99): the
timezone plays no part in these format codes. -/
def fmtDateTime (d : DateTime) : String :=
  pad4 d.dt.year ++ "-" ++ pad2 d.dt.month ++ "-" ++ pad2 d.dt.day ++ " " ++
    pad2 d.dt.hour ++ ":" ++ pad2 d.dt.minute ++ ":" ++ pad2 d.dt.second

/-- The fixed header titles (line 90 of the source). -/
def headerTitles : List String :=
  ["Bucket Name", "Created Date", "Last Modified Date", "Location",
   "Storage Class"]

/-- The header row (lines 90-93): each title written bold. -/
def headerRow : List Cell :=
  headerTitles.map (fun t => { value := t, bold := true })

/-- One data row (lines 96-101): name, the two formatted dates, location,
storage class, written without styling. -/
def bucketRow (bucket : ScanResult) : List Cell :=
  [{ value := bucket.name, bold := false },
   { value := fmtDateTime bucket.created, bold := false },
   { value := fmtDateTime bucket.last_modified, bold := false },
   { value := bucket.location, bold := false },
   { value := bucket.storage_class, bold := false }]

/-- The rows of the worksheet `write_to_excel` builds (lines 85-101):
header row first, then one row per result, in list order. -/
def sheetRows (buckets : List ScanResult) : List (List Cell) :=
  headerRow :: buckets.map bucketRow

/-- The process-visible state `main` threads through a run: the
`GOOGLE_CLOUD_PROJECT` environment variable, the outcome of loading the
credentials file, the storage service behind a successfully built client,
and the output file (if one has been written). -/
structure World where
  env_project : Option String
  credentials : Except PyError Unit
  storage : Client
  out_file : Option (List (List Cell))

/-- `write_to_excel` (lines 83-119) as a state change: build the worksheet
and save it to the output path. -/
def write_to_excel (w : World) (buckets : List ScanResult) : World :=
  { w with out_file := some (sheetRows buckets) }

/-- `get_storage_client` (lines 27-36): first set `GOOGLE_CLOUD_PROJECT`,
then load the credentials file; on failure log and re-raise, on success
return the client. -/
def get_storage_client (w : World) (project_id : String) :
    World × Except PyError Client :=
  let w1 : World := { w with env_project := some project_id }
  match w1.credentials with
  | .error e => (w1, .error e)
  | .ok _ => (w1, .ok w1.storage)

/-- How a run of `main` ends. -/
inductive MainOutcome where
  /-- The cutoff date failed to parse: log and return (lines 126-128). -/
  | invalidDate : MainOutcome
  /-- An exception reached the `try` at line 132 and was caught and logged
  by the handler at lines 141-142; `main` then returns normally. -/
  | errorCaught : MainOutcome
  /-- The scan and report phase ran to completion (lines 133-140);
  `reportWritten` records whether `write_to_excel` was invoked. -/
  | completed (results : List ScanResult) (reportWritten : Bool) : MainOutcome
deriving DecidableEq, Repr

/-- The `try` suite of `main` (lines 133-140): build the client (re-raising
its failure), scan, and write the report only when the result list is
truthy (non-empty). -/
def main_body (w : World) (project_id : String) (cutoff : NaiveDateTime) :
    World × Except PyError (World × List ScanResult × Bool) :=
  match get_storage_client w project_id with
  | (w1, .error e) => (w1, .error e)
  | (w1, .ok client) =>
    let results := get_unmodified_buckets client cutoff
    if results.isEmpty then (w1, .ok (w1, results, false))
    else (w1, .ok (write_to_excel w1 results, results, true))

/-- The source's `main` (lines 121-142): parse the cutoff (modelled as an
already-parsed `Option`), then run the body under the catch-all
`except Exception` handler, which logs and returns normally. -/
def main_run (w : World) (project_id : String)
    (parsed_cutoff : Option NaiveDateTime) : World × MainOutcome :=
  match parsed_cutoff with
  | none => (w, .invalidDate)
  | some cutoff =>
    match main_body w project_id cutoff with
    | (w1, .error _) => (w1, .errorCaught)
    | (_, .ok (w2, results, wrote)) => (w2, .completed results wrote)

/-- A string of shape `YYYY-MM-DD HH:MM:SS`: nineteen characters, digits
and the fixed separators in the fixed places. -/
def dateShape (s : String) : Bool :=
  match s.data with
  | [y1, y2, y3, y4, q1, mo1, mo2, q2, d1, d2, sp, h1, h2, c1, mi1, mi2,
     c2, s1, s2] =>
    y1.isDigit && y2.isDigit && y3.isDigit && y4.isDigit && (q1 == '-') &&
    mo1.isDigit && mo2.isDigit && (q2 == '-') && d1.isDigit && d2.isDigit &&
    (sp == ' ') && h1.isDigit && h2.isDigit && (c1 == ':') && mi1.isDigit &&
    mi2.isDigit && (c2 == ':') && s1.isDigit && s2.isDigit
  | _ => false

/-- The field ranges Python's `datetime` type guarantees
(`MINYEAR = 1`, `MAXYEAR = 9999`). -/
def NaiveDateTime.validRange (d : NaiveDateTime) : Bool :=
  1 ≤ d.year && d.year ≤ 9999 && 1 ≤ d.month && d.month ≤ 12 &&
  1 ≤ d.day && d.day ≤ 31 && d.hour ≤ 23 && d.minute ≤ 59 && d.second ≤ 59

/-- A sample creation timestamp, before the sample cutoff. -/
def sampleCreated : DateTime :=
  { dt := { year := 2020, month := 1, day := 15, hour := 8, minute := 30,
            second := 0 },
    tzinfo := some 0 }

/-- A sample cutoff. -/
def sampleCutoff : NaiveDateTime :=
  { year := 2021, month := 6, day := 30, hour := 12, minute := 0, second := 0 }

/-- A sample bucket, created before the cutoff and never updated. -/
def sampleBucket : BucketData :=
  { name := "b1", time_created := sampleCreated, updated := none,
    location := "US", storage_class := "STANDARD" }

/-- A sample client exposing exactly `sampleBucket`, with no objects. -/
def sampleClient : Client :=
  { list_buckets := .ok [sampleBucket]
    get_bucket := fun n =>
      if n = "b1" then .ok sampleBucket else .error (.apiError "not found")
    list_blobs := fun _ => .ok [] }

/-- A bucket created exactly at the sample cutoff. -/
def edgeBucket : BucketData :=
  { name := "e1", time_created := { dt := sampleCutoff, tzinfo := some 0 },
    updated := none, location := "EU", storage_class := "NEARLINE" }

/-- A client exposing exactly `edgeBucket`, with no objects. -/
def edgeClient : Client :=
  { list_buckets := .ok [edgeBucket]
    get_bucket := fun n =>
      if n = "e1" then .ok edgeBucket else .error (.apiError "not found")
    list_blobs := fun _ => .ok [] }

/-- A bucket whose metadata fetch will fail. -/
def badBucket : BucketData :=
  { name := "bad", time_created := sampleCreated, updated := none,
    location := "US", storage_class := "STANDARD" }

/-- A client listing two buckets, one of which cannot be fetched. -/
def failClient : Client :=
  { list_buckets := .ok [sampleBucket, badBucket]
    get_bucket := fun n =>
      if n = "b1" then .ok sampleBucket else .error (.apiError "forbidden")
    list_blobs := fun _ => .ok [] }

/-- A client whose bucket listing fails outright. -/
def listFailClient : Client :=
  { list_buckets := .error (.apiError "listing failed")
    get_bucket := fun _ => .error (.apiError "unreachable")
    list_blobs := fun _ => .ok [] }

/-- A world with valid credentials over `listFailClient`. -/
def listFailWorld : World :=
  { env_project := none, credentials := .ok (), storage := listFailClient,
    out_file := none }

/-- A client that successfully lists zero buckets. -/
def emptyListClient : Client :=
  { list_buckets := .ok []
    get_bucket := fun _ => .error (.apiError "no bucket")
    list_blobs := fun _ => .ok [] }

/-- A world with valid credentials, an existing output file, and a project
with no buckets. -/
def emptyListWorld : World :=
  { env_project := none, credentials := .ok (), storage := emptyListClient,
    out_file := some [[{ value := "stale", bold := false }]] }

/-- A client whose single bucket holds one blob without a last-modified
timestamp. -/
def noneBlobClient : Client :=
  { list_buckets := .ok [sampleBucket]
    get_bucket := fun n =>
      if n = "b1" then .ok sampleBucket else .error (.apiError "not found")
    list_blobs := fun _ => .ok [{ updated := none }] }

/-- A world whose credential file is missing or invalid. -/
def badCredWorld : World :=
  { env_project := none, credentials := .error .credentialsError,
    storage := sampleClient, out_file := none }

/-- The scan result of the sample bucket. -/
def sampleResult : ScanResult := mkScanResult sampleBucket

theorem NaiveDateTime.lt_irrefl (a : NaiveDateTime) :
    NaiveDateTime.lt a a = false := by
  simp [NaiveDateTime.lt]

theorem NaiveDateTime.lt_false_iff_le (a b : NaiveDateTime) :
    NaiveDateTime.lt a b = false ↔ NaiveDateTime.le b a = true := by
  cases a; cases b
  simp only [NaiveDateTime.lt, NaiveDateTime.le, Bool.or_eq_true, beq_iff_eq,
    NaiveDateTime.mk.injEq]
  split_ifs <;> simp_all <;> omega

theorem afterCutoff_false_iff (d : DateTime) (c : NaiveDateTime) :
    afterCutoff d c = false ↔
      NaiveDateTime.le (DateTime.replaceTzNone d).dt c = true := by
  exact NaiveDateTime.lt_false_iff_le c (DateTime.replaceTzNone d).dt

theorem blobsExceed_ok_false_iff (blobs : List Blob) (cutoff : NaiveDateTime)
    (hup : ∀ bl ∈ blobs, bl.updated.isSome) :
    blobsExceed blobs cutoff = .ok false ↔
      ∀ bl ∈ blobs, ∀ u, bl.updated = some u → afterCutoff u cutoff = false := by
  induction blobs with
  | nil => simp [blobsExceed]
  | cons blob rest ih =>
    cases hu : blob.updated with
    | none =>
      have hblob := hup blob (List.mem_cons_self blob rest)
      rw [hu] at hblob
      simp at hblob
    | some u =>
      cases hc : afterCutoff u cutoff with
      | true =>
        have hrw : blobsExceed (blob :: rest) cutoff = .ok true := by
          simp [blobsExceed, hu, hc]
        rw [hrw]
        constructor
        · intro h; cases h
        · intro h
          have := h blob (List.mem_cons_self blob rest) u hu
          rw [this] at hc
          cases hc
      | false =>
        have hrw : blobsExceed (blob :: rest) cutoff = blobsExceed rest cutoff := by
          simp [blobsExceed, hu, hc]
        rw [hrw, ih (fun bl hbl => hup bl (List.mem_cons_of_mem blob hbl))]
        constructor
        · intro h bl hbl u' hu'
          rcases List.mem_cons.mp hbl with rfl | hbl'
          · rw [hu] at hu'
            injection hu' with hq
            rw [hq] at hc
            exact hc
          · exact h bl hbl' u' hu'
        · intro h bl hbl u' hu'
          exact h bl (List.mem_cons_of_mem blob hbl) u' hu'

theorem blobsExceed_error_of_none (blobs : List Blob) (cutoff : NaiveDateTime)
    (hok : ∀ bl ∈ blobs, ∀ u, bl.updated = some u → afterCutoff u cutoff = false)
    (hnone : ∃ bl ∈ blobs, bl.updated = none) :
    blobsExceed blobs cutoff = .error .attributeError := by
  induction blobs with
  | nil => simp at hnone
  | cons blob rest ih =>
    cases hu : blob.updated with
    | none => simp [blobsExceed, hu]
    | some u =>
      have hc := hok blob (List.mem_cons_self blob rest) u hu
      have hrw : blobsExceed (blob :: rest) cutoff = blobsExceed rest cutoff := by
        simp [blobsExceed, hu, hc]
      rw [hrw]
      apply ih (fun bl hbl u' hu' => hok bl (List.mem_cons_of_mem blob hbl) u' hu')
      rcases hnone with ⟨bl, hbl, hbn⟩
      rcases List.mem_cons.mp hbl with rfl | hbl'
      · rw [hu] at hbn; cases hbn
      · exact ⟨bl, hbl', hbn⟩

theorem check_none_of_error (client : Client) (bucket_name : String)
    (cutoff : NaiveDateTime) (e : PyError)
    (h : check_bucket_modification_body client bucket_name cutoff = .error e) :
    check_bucket_modification client bucket_name cutoff = none := by
  unfold check_bucket_modification
  rw [h]

theorem check_eq_some_of (client : Client) (bucket_name : String)
    (cutoff : NaiveDateTime) (bd : BucketData) (blobs : List Blob)
    (hg : client.get_bucket bucket_name = .ok bd)
    (hlb : client.list_blobs bucket_name = .ok blobs)
    (h1 : afterCutoff bd.time_created cutoff = false)
    (h2 : ∀ u, bd.updated = some u → afterCutoff u cutoff = false)
    (h3 : blobsExceed blobs cutoff = .ok false) :
    check_bucket_modification client bucket_name cutoff =
      some (mkScanResult bd) := by
  unfold check_bucket_modification check_bucket_modification_body
  rw [hg]
  cases hu : bd.updated with
  | none => simp [h1, hu, hlb, h3]
  | some u =>
    have hcu := h2 u hu
    simp [h1, hu, hcu, hlb, h3]

theorem check_some_inv (client : Client) (bucket_name : String)
    (cutoff : NaiveDateTime) (r : ScanResult)
    (h : check_bucket_modification client bucket_name cutoff = some r) :
    ∃ bd blobs, client.get_bucket bucket_name = .ok bd ∧
      client.list_blobs bucket_name = .ok blobs ∧
      r = mkScanResult bd ∧
      afterCutoff bd.time_created cutoff = false ∧
      (∀ u, bd.updated = some u → afterCutoff u cutoff = false) ∧
      blobsExceed blobs cutoff = .ok false := by
  unfold check_bucket_modification check_bucket_modification_body at h
  cases hg : client.get_bucket bucket_name with
  | error e => rw [hg] at h; cases h
  | ok bd =>
    rw [hg] at h
    cases h1 : afterCutoff bd.time_created cutoff with
    | true => simp [h1] at h
    | false =>
      cases hu : bd.updated with
      | some u =>
        cases h2 : afterCutoff u cutoff with
        | true => simp [h1, hu, h2] at h
        | false =>
          cases hlb : client.list_blobs bucket_name with
          | error e => simp [h1, hu, h2, hlb] at h
          | ok blobs =>
            cases hbe : blobsExceed blobs cutoff with
            | error e => simp [h1, hu, h2, hlb, hbe] at h
            | ok b =>
              cases b with
              | true => simp [h1, hu, h2, hlb, hbe] at h
              | false =>
                simp only [h1, hu, h2, hlb, hbe] at h
                refine ⟨bd, blobs, rfl, rfl, ?_, h1, ?_, hbe⟩
                · simp at h
                  exact h.symm
                · intro u' hu'
                  rw [hu] at hu'
                  injection hu' with hq
                  rw [← hq]
                  exact h2
      | none =>
        cases hlb : client.list_blobs bucket_name with
        | error e => simp [h1, hu, hlb] at h
        | ok blobs =>
          cases hbe : blobsExceed blobs cutoff with
          | error e => simp [h1, hu, hlb, hbe] at h
          | ok b =>
            cases b with
            | true => simp [h1, hu, hlb, hbe] at h
            | false =>
              simp only [h1, hu, hlb, hbe] at h
              refine ⟨bd, blobs, rfl, rfl, ?_, h1, ?_, hbe⟩
              · simp at h
                exact h.symm
              · intro u' hu'
                rw [hu] at hu'
                cases hu'

theorem mem_get_unmodified_iff (client : Client) (cutoff : NaiveDateTime)
    (bs : List BucketData) (r : ScanResult)
    (hls : client.list_buckets = .ok bs) :
    r ∈ get_unmodified_buckets client cutoff ↔
      ∃ b ∈ bs, check_bucket_modification client b.name cutoff = some r := by
  unfold get_unmodified_buckets
  rw [hls]
  simp [List.mem_filterMap]

theorem sampleClient_coherent :
    ∀ n x, sampleClient.get_bucket n = .ok x → x.name = n := by
  intro n x h
  by_cases hn : n = "b1"
  · subst hn
    simp [sampleClient] at h
    rw [← h]
    rfl
  · simp [sampleClient, hn] at h

/-- C1.  Membership iff all three recency checks pass: for a bucket of the
listing whose metadata fetch and object listing succeed and whose objects
all carry a last-modified time, the scan result built from its metadata is
in `get_unmodified_buckets` iff the timezone-stripped creation time is at
or before the cutoff, the metadata-update time is absent or at or before
the cutoff, and every object's last-modified time is at or before the
cutoff. -/
theorem scan_membership_iff_three_checks
    (client : Client) (cutoff : NaiveDateTime) (bs : List BucketData)
    (b bd : BucketData) (blobs : List Blob)
    (hcoh : ∀ n x, client.get_bucket n = .ok x → x.name = n)
    (hls : client.list_buckets = .ok bs)
    (hb : b ∈ bs)
    (hg : client.get_bucket b.name = .ok bd)
    (hlb : client.list_blobs b.name = .ok blobs)
    (hup : ∀ bl ∈ blobs, bl.updated.isSome) :
    mkScanResult bd ∈ get_unmodified_buckets client cutoff ↔
      (NaiveDateTime.le (DateTime.replaceTzNone bd.time_created).dt cutoff
          = true ∧
       (∀ u, bd.updated = some u →
          NaiveDateTime.le (DateTime.replaceTzNone u).dt cutoff = true) ∧
       (∀ bl ∈ blobs, ∀ u, bl.updated = some u →
          NaiveDateTime.le (DateTime.replaceTzNone u).dt cutoff = true)) := by
  constructor
  · intro hmem
    rcases (mem_get_unmodified_iff client cutoff bs _ hls).mp hmem with
      ⟨b', hb', hchk⟩
    rcases check_some_inv client b'.name cutoff _ hchk with
      ⟨bd', blobs', hg', hlb', hr, h1', h2', h3'⟩
    have hname' : bd'.name = b'.name := hcoh b'.name bd' hg'
    have hnameb : bd.name = b.name := hcoh b.name bd hg
    have heqname : bd.name = bd'.name := by
      have := congrArg ScanResult.name hr
      simpa [mkScanResult] using this
    have hbname : b'.name = b.name := by rw [← hname', ← heqname, hnameb]
    rw [hbname] at hg' hlb'
    rw [hg] at hg'
    injection hg' with hbd
    rw [hlb] at hlb'
    injection hlb' with hblobs
    subst hbd
    subst hblobs
    refine ⟨(afterCutoff_false_iff _ _).mp h1', ?_, ?_⟩
    · intro u hu
      exact (afterCutoff_false_iff _ _).mp (h2' u hu)
    · intro bl hbl u hu
      have := (blobsExceed_ok_false_iff blobs cutoff hup).mp h3' bl hbl u hu
      exact (afterCutoff_false_iff _ _).mp this
  · rintro ⟨h1, h2, h3⟩
    have h1' : afterCutoff bd.time_created cutoff = false :=
      (afterCutoff_false_iff _ _).mpr h1
    have h2' : ∀ u, bd.updated = some u → afterCutoff u cutoff = false :=
      fun u hu => (afterCutoff_false_iff _ _).mpr (h2 u hu)
    have h3' : blobsExceed blobs cutoff = .ok false :=
      (blobsExceed_ok_false_iff blobs cutoff hup).mpr
        (fun bl hbl u hu => (afterCutoff_false_iff _ _).mpr (h3 bl hbl u hu))
    have hchk := check_eq_some_of client b.name cutoff bd blobs hg hlb h1' h2' h3'
    exact (mem_get_unmodified_iff client cutoff bs _ hls).mpr ⟨b, hb, hchk⟩

/-- Witness for C1 at a concrete client: the sample bucket passes the three
checks and its scan result is in the result set. -/
theorem scan_membership_iff_three_checks_witness :
    mkScanResult sampleBucket ∈ get_unmodified_buckets sampleClient sampleCutoff ↔
      (NaiveDateTime.le (DateTime.replaceTzNone sampleBucket.time_created).dt
          sampleCutoff = true ∧
       (∀ u, sampleBucket.updated = some u →
          NaiveDateTime.le (DateTime.replaceTzNone u).dt sampleCutoff = true) ∧
       (∀ bl ∈ ([] : List Blob), ∀ u, bl.updated = some u →
          NaiveDateTime.le (DateTime.replaceTzNone u).dt sampleCutoff = true)) :=
  scan_membership_iff_three_checks sampleClient sampleCutoff [sampleBucket]
    sampleBucket sampleBucket [] sampleClient_coherent rfl
    (List.mem_singleton.mpr rfl) (by simp [sampleClient, sampleBucket])
    (by simp [sampleClient]) (by simp)

/-- C2.  Boundary inclusivity: a bucket whose timezone-stripped creation
time equals the cutoff exactly, and whose metadata-update and per-object
checks pass, is included in the result set — only a timestamp strictly
after the cutoff excludes. -/
theorem boundary_creation_at_cutoff_included
    (client : Client) (cutoff : NaiveDateTime) (bs : List BucketData)
    (b bd : BucketData) (blobs : List Blob)
    (hls : client.list_buckets = .ok bs)
    (hb : b ∈ bs)
    (hg : client.get_bucket b.name = .ok bd)
    (hlb : client.list_blobs b.name = .ok blobs)
    (heq : (DateTime.replaceTzNone bd.time_created).dt = cutoff)
    (h2 : ∀ u, bd.updated = some u →
        NaiveDateTime.le (DateTime.replaceTzNone u).dt cutoff = true)
    (h3 : ∀ bl ∈ blobs, ∀ u, bl.updated = some u →
        NaiveDateTime.le (DateTime.replaceTzNone u).dt cutoff = true)
    (hup : ∀ bl ∈ blobs, bl.updated.isSome) :
    mkScanResult bd ∈ get_unmodified_buckets client cutoff := by
  have h1 : afterCutoff bd.time_created cutoff = false := by
    unfold afterCutoff
    rw [heq]
    exact NaiveDateTime.lt_irrefl cutoff
  have h2' : ∀ u, bd.updated = some u → afterCutoff u cutoff = false :=
    fun u hu => (afterCutoff_false_iff _ _).mpr (h2 u hu)
  have h3' : blobsExceed blobs cutoff = .ok false :=
    (blobsExceed_ok_false_iff blobs cutoff hup).mpr
      (fun bl hbl u hu => (afterCutoff_false_iff _ _).mpr (h3 bl hbl u hu))
  have hchk := check_eq_some_of client b.name cutoff bd blobs hg hlb h1 h2' h3'
  exact (mem_get_unmodified_iff client cutoff bs _ hls).mpr ⟨b, hb, hchk⟩

/-- Witness for C2: the bucket created exactly at the cutoff is in the
result set. -/
theorem boundary_creation_at_cutoff_included_witness :
    mkScanResult edgeBucket ∈ get_unmodified_buckets edgeClient sampleCutoff :=
  boundary_creation_at_cutoff_included edgeClient sampleCutoff [edgeBucket]
    edgeBucket edgeBucket [] rfl (List.mem_singleton.mpr rfl)
    (by simp [edgeClient, edgeBucket]) (by simp [edgeClient]) rfl
    (by simp [edgeBucket]) (by simp) (by simp)

/-- C4.  Per-bucket failure isolation: any exception in the single-bucket
scan body becomes `none` for that bucket, and with a successful listing
the result set is the independent per-bucket `filterMap`, so one bucket's
failure leaves every other bucket's contribution unchanged. -/
theorem per_bucket_failure_isolation (client : Client)
    (cutoff : NaiveDateTime) :
    (∀ bucket_name e,
        check_bucket_modification_body client bucket_name cutoff = .error e →
        check_bucket_modification client bucket_name cutoff = none) ∧
    (∀ bs, client.list_buckets = .ok bs →
        get_unmodified_buckets client cutoff =
          bs.filterMap
            (fun bucket =>
              check_bucket_modification client bucket.name cutoff)) := by
  constructor
  · intro bucket_name e h
    exact check_none_of_error client bucket_name cutoff e h
  · intro bs hls
    unfold get_unmodified_buckets
    rw [hls]

/-- Witness for C4: the inaccessible bucket raises, is converted to `none`,
and the accessible bucket still appears via the `filterMap`. -/
theorem per_bucket_failure_isolation_witness :
    check_bucket_modification_body failClient "bad" sampleCutoff =
      .error (.apiError "forbidden") ∧
    check_bucket_modification failClient "bad" sampleCutoff = none ∧
    get_unmodified_buckets failClient sampleCutoff =
      [sampleBucket, badBucket].filterMap
        (fun bucket =>
          check_bucket_modification failClient bucket.name sampleCutoff) ∧
    get_unmodified_buckets failClient sampleCutoff =
      [mkScanResult sampleBucket] :=
  ⟨rfl, (per_bucket_failure_isolation failClient sampleCutoff).1 "bad"
      (.apiError "forbidden") rfl,
   (per_bucket_failure_isolation failClient sampleCutoff).2
      [sampleBucket, badBucket] rfl,
   by decide⟩

/-- C5.  For every scan result the reported `last_modified` is the bucket's
metadata-update time when present, else its creation time (and the other
fields are copied from the bucket). -/
theorem result_last_modified_field (client : Client) (bucket_name : String)
    (cutoff : NaiveDateTime) (r : ScanResult)
    (h : check_bucket_modification client bucket_name cutoff = some r) :
    ∃ bd, client.get_bucket bucket_name = .ok bd ∧
      r.name = bd.name ∧ r.created = bd.time_created ∧
      r.last_modified = bd.updated.getD bd.time_created ∧
      r.location = bd.location ∧ r.storage_class = bd.storage_class := by
  rcases check_some_inv client bucket_name cutoff r h with
    ⟨bd, blobs, hg, hlb, hr, _⟩
  subst hr
  exact ⟨bd, hg, rfl, rfl, rfl, rfl, rfl⟩

/-- Witness for C5 at the sample client. -/
theorem result_last_modified_field_witness :
    ∃ bd, sampleClient.get_bucket "b1" = .ok bd ∧
      (mkScanResult sampleBucket).name = bd.name ∧
      (mkScanResult sampleBucket).created = bd.time_created ∧
      (mkScanResult sampleBucket).last_modified =
        bd.updated.getD bd.time_created ∧
      (mkScanResult sampleBucket).location = bd.location ∧
      (mkScanResult sampleBucket).storage_class = bd.storage_class :=
  result_last_modified_field sampleClient "b1" sampleCutoff
    (mkScanResult sampleBucket) (by decide)

/-- C7.  If the initial bucket listing fails, the coordinator returns an
empty result set and `main` still runs to a normal completion (no report
is written): fatal to the scan, non-fatal to the process. -/
theorem listing_failure_empty_scan (w : World) (project_id : String)
    (cutoff : NaiveDateTime) (e : PyError)
    (hcred : w.credentials = .ok ())
    (hls : w.storage.list_buckets = .error e) :
    get_unmodified_buckets w.storage cutoff = [] ∧
    main_run w project_id (some cutoff) =
      ({ w with env_project := some project_id }, .completed [] false) := by
  have hempty : get_unmodified_buckets w.storage cutoff = [] := by
    unfold get_unmodified_buckets
    rw [hls]
  refine ⟨hempty, ?_⟩
  simp [main_run, main_body, get_storage_client, hcred, hempty]

/-- Witness for C7. -/
theorem listing_failure_empty_scan_witness :
    get_unmodified_buckets listFailClient sampleCutoff = [] ∧
    main_run listFailWorld "proj" (some sampleCutoff) =
      ({ listFailWorld with env_project := some "proj" },
       .completed [] false) :=
  listing_failure_empty_scan listFailWorld "proj" sampleCutoff
    (.apiError "listing failed") rfl rfl

/-- C8.  When the scan yields no results, `main` skips the report writer:
the outcome records that nothing was written and the output file state is
exactly what it was before the run. -/
theorem empty_results_skip_report (w : World) (project_id : String)
    (cutoff : NaiveDateTime)
    (hcred : w.credentials = .ok ())
    (hempty : get_unmodified_buckets w.storage cutoff = []) :
    main_run w project_id (some cutoff) =
      ({ w with env_project := some project_id }, .completed [] false) ∧
    (main_run w project_id (some cutoff)).1.out_file = w.out_file := by
  have hmain : main_run w project_id (some cutoff) =
      ({ w with env_project := some project_id }, .completed [] false) := by
    simp [main_run, main_body, get_storage_client, hcred, hempty]
  exact ⟨hmain, by rw [hmain]⟩

/-- Witness for C8: with an empty scan the pre-existing output file
survives untouched and no report is written. -/
theorem empty_results_skip_report_witness :
    main_run emptyListWorld "proj" (some sampleCutoff) =
      ({ emptyListWorld with env_project := some "proj" },
       .completed [] false) ∧
    (main_run emptyListWorld "proj" (some sampleCutoff)).1.out_file =
      some [[{ value := "stale", bold := false }]] :=
  empty_results_skip_report emptyListWorld "proj" sampleCutoff rfl rfl

/-- C9.  A blob with `updated = None` makes the per-object comparison raise
`AttributeError`; the scanner's catch-all turns this into `none`, so the
bucket is excluded as a scan failure rather than included or crashing. -/
theorem blob_updated_none_excluded (client : Client) (bucket_name : String)
    (cutoff : NaiveDateTime) (bd : BucketData) (blobs : List Blob)
    (hg : client.get_bucket bucket_name = .ok bd)
    (h1 : afterCutoff bd.time_created cutoff = false)
    (h2 : ∀ u, bd.updated = some u → afterCutoff u cutoff = false)
    (hlb : client.list_blobs bucket_name = .ok blobs)
    (hok : ∀ bl ∈ blobs, ∀ u, bl.updated = some u →
        afterCutoff u cutoff = false)
    (hnone : ∃ bl ∈ blobs, bl.updated = none) :
    check_bucket_modification_body client bucket_name cutoff =
      .error .attributeError ∧
    check_bucket_modification client bucket_name cutoff = none := by
  have hbe := blobsExceed_error_of_none blobs cutoff hok hnone
  have hbody : check_bucket_modification_body client bucket_name cutoff =
      .error .attributeError := by
    unfold check_bucket_modification_body
    rw [hg]
    cases hu : bd.updated with
    | none => simp [h1, hu, hlb, hbe]
    | some u =>
      have hcu := h2 u hu
      simp [h1, hu, hcu, hlb, hbe]
  exact ⟨hbody, check_none_of_error client bucket_name cutoff _ hbody⟩

/-- Witness for C9. -/
theorem blob_updated_none_excluded_witness :
    check_bucket_modification_body noneBlobClient "b1" sampleCutoff =
      .error .attributeError ∧
    check_bucket_modification noneBlobClient "b1" sampleCutoff = none :=
  blob_updated_none_excluded noneBlobClient "b1" sampleCutoff sampleBucket
    [{ updated := none }] rfl (by decide) (by simp [sampleBucket]) rfl
    (by intro bl hbl u hu; simp at hbl; rw [hbl] at hu; cases hu)
    ⟨{ updated := none }, by simp, rfl⟩

/-- C10.  Building the client always records the project id in the
`GOOGLE_CLOUD_PROJECT` environment variable, and the mutation survives a
credential-resolution failure. -/
theorem env_project_set_even_on_failure (w : World) (project_id : String) :
    (get_storage_client w project_id).1.env_project = some project_id ∧
    (∀ e, (get_storage_client w project_id).2 = .error e →
      (get_storage_client w project_id).1.env_project = some project_id) := by
  unfold get_storage_client
  cases hc : w.credentials <;> simp

/-- Witness for C10: the environment variable is set although the
credential load failed. -/
theorem env_project_set_even_on_failure_witness :
    (get_storage_client badCredWorld "proj").2 =
      .error PyError.credentialsError ∧
    (get_storage_client badCredWorld "proj").1.env_project = some "proj" :=
  ⟨rfl, (env_project_set_even_on_failure badCredWorld "proj").2
    PyError.credentialsError rfl⟩

/-- C3 counterexample: with no valid local credentials the resolver's
re-raised failure reaches the `try` in `main` (first conjunct) but is
caught by `main`'s own `except Exception` handler, so the run ends in a
normal return (`errorCaught`) — not by the failure propagating uncaught
to the top level as the claim states. -/
theorem credential_failure_caught_counterexample :
    (main_body badCredWorld "proj" sampleCutoff).2 =
      .error PyError.credentialsError ∧
    main_run badCredWorld "proj" (some sampleCutoff) =
      ({ badCredWorld with env_project := some "proj" }, .errorCaught) :=
  ⟨rfl, rfl⟩

/-- C3 amended: on credential failure the resolver logs and re-raises; the
failure propagates out of `get_storage_client`, is caught by `main`'s
catch-all handler and logged; no scan runs and no report is written
(`main` returns normally, only the environment mutation remains). -/
theorem credential_failure_aborts_run (w : World) (project_id : String)
    (cutoff : NaiveDateTime) (e : PyError)
    (hcred : w.credentials = .error e) :
    (get_storage_client w project_id).2 = .error e ∧
    main_run w project_id (some cutoff) =
      ({ w with env_project := some project_id }, .errorCaught) := by
  constructor
  · simp [get_storage_client, hcred]
  · simp [main_run, main_body, get_storage_client, hcred]

/-- Witness for the amended C3. -/
theorem credential_failure_aborts_run_witness :
    badCredWorld.credentials = .error PyError.credentialsError ∧
    main_run badCredWorld "proj" (some sampleCutoff) =
      ({ badCredWorld with env_project := some "proj" }, .errorCaught) :=
  ⟨rfl, (credential_failure_aborts_run badCredWorld "proj" sampleCutoff
    PyError.credentialsError rfl).2⟩

theorem decDigits_of_lt (n : Nat) (h : n < 10) :
    decDigits n = [Char.ofNat (48 + n)] := by
  rw [decDigits]
  simp [h]

theorem decDigits_of_ge (n : Nat) (h : ¬ n < 10) :
    decDigits n = decDigits (n / 10) ++ [Char.ofNat (48 + n % 10)] := by
  rw [decDigits]
  simp [h]

theorem charOfDigit_isDigit (d : Nat) (h : d ≤ 9) :
    (Char.ofNat (48 + d)).isDigit = true := by
  interval_cases d <;> decide

theorem decDigits_len1 (n : Nat) (h : n < 10) :
    ∃ a : Char, decDigits n = [a] ∧ a.isDigit = true :=
  ⟨Char.ofNat (48 + n), decDigits_of_lt n h, charOfDigit_isDigit n (by omega)⟩

theorem decDigits_len2 (n : Nat) (h1 : 10 ≤ n) (h2 : n < 100) :
    ∃ a b : Char, decDigits n = [a, b] ∧ a.isDigit = true ∧
      b.isDigit = true := by
  rcases decDigits_len1 (n / 10) (by omega) with ⟨a, ha, had⟩
  refine ⟨a, Char.ofNat (48 + n % 10), ?_, had,
    charOfDigit_isDigit (n % 10) (by omega)⟩
  rw [decDigits_of_ge n (by omega), ha]
  rfl

theorem decDigits_len3 (n : Nat) (h1 : 100 ≤ n) (h2 : n < 1000) :
    ∃ a b c : Char, decDigits n = [a, b, c] ∧ a.isDigit = true ∧
      b.isDigit = true ∧ c.isDigit = true := by
  rcases decDigits_len2 (n / 10) (by omega) (by omega) with ⟨a, b, hab, had, hbd⟩
  refine ⟨a, b, Char.ofNat (48 + n % 10), ?_, had, hbd,
    charOfDigit_isDigit (n % 10) (by omega)⟩
  rw [decDigits_of_ge n (by omega), hab]
  rfl

theorem decDigits_len4 (n : Nat) (h1 : 1000 ≤ n) (h2 : n < 10000) :
    ∃ a b c d : Char, decDigits n = [a, b, c, d] ∧ a.isDigit = true ∧
      b.isDigit = true ∧ c.isDigit = true ∧ d.isDigit = true := by
  rcases decDigits_len3 (n / 10) (by omega) (by omega) with
    ⟨a, b, c, habc, had, hbd, hcd⟩
  refine ⟨a, b, c, Char.ofNat (48 + n % 10), ?_, had, hbd, hcd,
    charOfDigit_isDigit (n % 10) (by omega)⟩
  rw [decDigits_of_ge n (by omega), habc]
  rfl

theorem pad2_data (n : Nat) (h : n ≤ 99) :
    ∃ a b : Char, (pad2 n).data = [a, b] ∧ a.isDigit = true ∧
      b.isDigit = true := by
  by_cases h10 : n < 10
  · rcases decDigits_len1 n h10 with ⟨a, ha, had⟩
    refine ⟨'0', a, ?_, by decide, had⟩
    simp [pad2, h10, natStr, String.data_append, ha]
  · rcases decDigits_len2 n (by omega) (by omega) with ⟨a, b, hab, had, hbd⟩
    refine ⟨a, b, ?_, had, hbd⟩
    simp [pad2, h10, natStr, hab]

theorem pad4_data (n : Nat) (h : n ≤ 9999) :
    ∃ a b c d : Char, (pad4 n).data = [a, b, c, d] ∧ a.isDigit = true ∧
      b.isDigit = true ∧ c.isDigit = true ∧ d.isDigit = true := by
  by_cases h10 : n < 10
  · rcases decDigits_len1 n h10 with ⟨a, ha, had⟩
    refine ⟨'0', '0', '0', a, ?_, by decide, by decide, by decide, had⟩
    simp [pad4, h10, natStr, String.data_append, ha]
  · by_cases h100 : n < 100
    · rcases decDigits_len2 n (by omega) h100 with ⟨a, b, hab, had, hbd⟩
      refine ⟨'0', '0', a, b, ?_, by decide, by decide, had, hbd⟩
      simp [pad4, h10, h100, natStr, String.data_append, hab]
    · by_cases h1000 : n < 1000
      · rcases decDigits_len3 n (by omega) h1000 with
          ⟨a, b, c, habc, had, hbd, hcd⟩
        refine ⟨'0', a, b, c, ?_, by decide, had, hbd, hcd⟩
        simp [pad4, h10, h100, h1000, natStr, String.data_append, habc]
      · rcases decDigits_len4 n (by omega) (by omega) with
          ⟨a, b, c, d, habcd, had, hbd, hcd, hdd⟩
        refine ⟨a, b, c, d, ?_, had, hbd, hcd, hdd⟩
        simp [pad4, h10, h100, h1000, natStr, habcd]

theorem fmtDateTime_shape (d : DateTime) (hv : d.dt.validRange = true) :
    dateShape (fmtDateTime d) = true := by
  simp only [NaiveDateTime.validRange, Bool.and_eq_true, decide_eq_true_eq]
    at hv
  obtain ⟨⟨⟨⟨⟨⟨⟨⟨hy1, hy2⟩, hmo1⟩, hmo2⟩, hd1⟩, hd2⟩, hh⟩, hmi⟩, hs⟩ := hv
  rcases pad4_data d.dt.year (by omega) with ⟨y1, y2, y3, y4, hy, q1, q2, q3, q4⟩
  rcases pad2_data d.dt.month (by omega) with ⟨m1, m2, hm, qm1, qm2⟩
  rcases pad2_data d.dt.day (by omega) with ⟨e1, e2, he, qe1, qe2⟩
  rcases pad2_data d.dt.hour (by omega) with ⟨g1, g2, hg, qg1, qg2⟩
  rcases pad2_data d.dt.minute (by omega) with ⟨i1, i2, hi, qi1, qi2⟩
  rcases pad2_data d.dt.second (by omega) with ⟨j1, j2, hj, qj1, qj2⟩
  have hdata : (fmtDateTime d).data =
      [y1, y2, y3, y4, '-', m1, m2, '-', e1, e2, ' ', g1, g2, ':',
       i1, i2, ':', j1, j2] := by
    simp [fmtDateTime, String.data_append, hy, hm, he, hg, hi, hj]
  unfold dateShape
  rw [hdata]
  simp [q1, q2, q3, q4, qm1, qm2, qe1, qe2, qg1, qg2, qi1, qi2, qj1, qj2]

/-- C6.  Report shape: for a result set of size N the worksheet has N+1
rows — a header row of exactly the five bold fixed titles, then one row
per result in order — and (for field values in the ranges Python's
`datetime` guarantees) every date cell renders as `YYYY-MM-DD HH:MM:SS`. -/
theorem report_sheet_shape (buckets : List ScanResult)
    (hv : ∀ b ∈ buckets, b.created.dt.validRange = true ∧
        b.last_modified.dt.validRange = true) :
    (sheetRows buckets).length = buckets.length + 1 ∧
    (sheetRows buckets).head? = some
      [{ value := "Bucket Name", bold := true },
       { value := "Created Date", bold := true },
       { value := "Last Modified Date", bold := true },
       { value := "Location", bold := true },
       { value := "Storage Class", bold := true }] ∧
    (sheetRows buckets).tail = buckets.map bucketRow ∧
    (∀ b ∈ buckets,
      bucketRow b =
        [{ value := b.name, bold := false },
         { value := fmtDateTime b.created, bold := false },
         { value := fmtDateTime b.last_modified, bold := false },
         { value := b.location, bold := false },
         { value := b.storage_class, bold := false }] ∧
      dateShape (fmtDateTime b.created) = true ∧
      dateShape (fmtDateTime b.last_modified) = true) := by
  refine ⟨by simp [sheetRows], rfl, rfl, ?_⟩
  intro b hb
  exact ⟨rfl, fmtDateTime_shape b.created (hv b hb).1,
    fmtDateTime_shape b.last_modified (hv b hb).2⟩

/-- Witness for C6 on a one-element result set. -/
theorem report_sheet_shape_witness :
    (sheetRows [sampleResult]).length = 1 + 1 ∧
    (sheetRows [sampleResult]).head? = some
      [{ value := "Bucket Name", bold := true },
       { value := "Created Date", bold := true },
       { value := "Last Modified Date", bold := true },
       { value := "Location", bold := true },
       { value := "Storage Class", bold := true }] ∧
    (sheetRows [sampleResult]).tail = [sampleResult].map bucketRow ∧
    (∀ b ∈ [sampleResult],
      bucketRow b =
        [{ value := b.name, bold := false },
         { value := fmtDateTime b.created, bold := false },
         { value := fmtDateTime b.last_modified, bold := false },
         { value := b.location, bold := false },
         { value := b.storage_class, bold := false }] ∧
      dateShape (fmtDateTime b.created) = true ∧
      dateShape (fmtDateTime b.last_modified) = true) :=
  report_sheet_shape [sampleResult] (by decide)
